import Mathlib

/-!
Shallow embedding of `src/MomentumSystem.h` (a momentum system for a
sports simulation).  The repository ships only the header: every method
body is absent, so each operation below is modelled from the spec
(`spec.md`), faithful to its words; signatures, field lists, enum cases
and default-argument values are taken from the header.  C++ `int` is
embedded as `Int`; C++ `float` quantities (decay rates, durations,
hostility factors, deltaTime) are embedded as exact rationals `ℚ`.
-/

set_option linter.unusedVariables false

namespace MomentumSpec

/-- Closed event enumeration, cases exactly as in the header. -/
inductive EventType
  | Turnover
  | Sack
  | BigPlay
  | ThirdDownConversion
  | FourthDownConversion
  | MissedKick
  | Touchdown
  | Interception
  | Fumble
  | Stop
  | Other
deriving DecidableEq

/-- Team: name, home/away flag and the two behavioral ratings (header
fields).  A C++ `Team*` is embedded as `Option Team`. -/
structure Team where
  m_name : String
  m_isHome : Bool
  m_disciplineRating : Int
  m_composureRating : Int
deriving DecidableEq

/-- Modelled from the spec: `Team::Team` body is missing; defaults are the
header's default arguments, stored unchanged. -/
def Team.create (name : String := "") (isHome : Bool := false)
    (disciplineRating : Int := 50) (composureRating : Int := 50) : Team :=
  ⟨name, isHome, disciplineRating, composureRating⟩

/-- MomentumEvent: type, source team pointer, severity, timestamp
(header fields). -/
structure MomentumEvent where
  m_type : EventType
  m_sourceTeam : Option Team
  m_severity : Int
  m_timestamp : ℚ
deriving DecidableEq

/-- MomentumMeter: bounded decaying scalar accumulator (header fields). -/
structure MomentumMeter where
  m_value : Int
  m_minValue : Int
  m_maxValue : Int
  m_decayRate : ℚ
deriving DecidableEq

/-- Forcing of the value into `[m_minValue, m_maxValue]`; the spec's data
model requires the value to be within bounds after any public mutation
completes, so every mutator below ends with this. -/
def MomentumMeter.clampValue (m : MomentumMeter) : MomentumMeter :=
  { m with m_value := max m.m_minValue (min m.m_maxValue m.m_value) }

/-- Modelled from the spec: `MomentumMeter::MomentumMeter` body is
missing.  Defaults are the header's default arguments
(`-100`, `100`, `0.25f`); the value starts at the neutral baseline 0,
clamped into the configured bounds. -/
def MomentumMeter.create (minValue : Int := -100) (maxValue : Int := 100)
    (decayRate : ℚ := 1/4) : MomentumMeter :=
  MomentumMeter.clampValue ⟨0, minValue, maxValue, decayRate⟩

/-- Modelled from the spec: `MomentumMeter::Add` body is missing.
"Add(points) increases the internal value by points (may be negative)";
the data-model invariant keeps the value within bounds after the
mutation completes. -/
def MomentumMeter.Add (m : MomentumMeter) (points : Int) : MomentumMeter :=
  MomentumMeter.clampValue { m with m_value := m.m_value + points }

/-- Integer magnitude removed by one decay step: `decayRate * deltaTime`,
with a negative `deltaTime` clamped to zero before use (spec §7), rounded
down to the integer meter scale. -/
def MomentumMeter.decayAmount (m : MomentumMeter) (deltaTime : ℚ) : Int :=
  Int.floor (m.m_decayRate * max 0 deltaTime)

/-- Modelled from the spec: `MomentumMeter::Decay` body is missing.
"Decay(deltaTime) pulls the value toward 0 by decayRate * deltaTime,
never overshooting past 0 (decay cannot flip sign)". -/
def MomentumMeter.Decay (m : MomentumMeter) (deltaTime : ℚ) : MomentumMeter :=
  let amt := m.decayAmount deltaTime
  let v :=
    if 0 < m.m_value then max 0 (m.m_value - amt)
    else if m.m_value < 0 then min 0 (m.m_value + amt)
    else m.m_value
  MomentumMeter.clampValue { m with m_value := v }

/-- Modelled from the spec: `MomentumMeter::Clamp` body is missing.
"Clamp() forces the value into [minValue, maxValue]". -/
def MomentumMeter.Clamp (m : MomentumMeter) : MomentumMeter :=
  m.clampValue

/-- Modelled from the spec: `MomentumMeter::GetValue` body is missing.
"GetValue() returns the current clamped value". -/
def MomentumMeter.GetValue (m : MomentumMeter) : Int :=
  m.m_value

/-- One public mutation of a meter, for stating properties over arbitrary
call sequences. -/
inductive MeterOp
  | add (points : Int)
  | decay (deltaTime : ℚ)
  | clamp

def MomentumMeter.applyMeterOp (m : MomentumMeter) : MeterOp → MomentumMeter
  | .add p => m.Add p
  | .decay dt => m.Decay dt
  | .clamp => m.Clamp

def MomentumMeter.runOps (m : MomentumMeter) (ops : List MeterOp) : MomentumMeter :=
  ops.foldl MomentumMeter.applyMeterOp m

/-- RivalryProfile: static matchup context (header fields). -/
structure RivalryProfile where
  m_rivalryName : String
  m_rivalryTier : Int
  m_hostilityFactor : ℚ
  m_isRivalryGame : Bool
deriving DecidableEq

/-- Modelled from the spec: `RivalryProfile::RivalryProfile` body is
missing; defaults are the header's default arguments
(`""`, `0`, `1.0f`, `false`), stored unchanged. -/
def RivalryProfile.create (rivalryName : String := "") (rivalryTier : Int := 0)
    (hostilityFactor : ℚ := 1) (isRivalryGame : Bool := false) : RivalryProfile :=
  ⟨rivalryName, rivalryTier, hostilityFactor, isRivalryGame⟩

def RivalryProfile.GetRivalryName (r : RivalryProfile) : String := r.m_rivalryName

def RivalryProfile.GetRivalryTier (r : RivalryProfile) : Int := r.m_rivalryTier

def RivalryProfile.GetHostilityFactor (r : RivalryProfile) : ℚ := r.m_hostilityFactor

def RivalryProfile.IsRivalryGame (r : RivalryProfile) : Bool := r.m_isRivalryGame

/-- GameState: per-tick context snapshot (header fields). -/
structure GameState where
  m_quarter : Int
  m_timeRemaining : Int
  m_scoreDiff : Int
  m_isOnlineCompetitive : Bool
  m_rivalryProfile : RivalryProfile
deriving DecidableEq

/-- Modelled from the spec: `GameState::GameState` body is missing; a
fresh snapshot starts at the first quarter with a full 900-second
quarter clock, level score, offline play and a default rivalry
profile. -/
def GameState.create : GameState :=
  ⟨1, 900, 0, false, RivalryProfile.create⟩

def GameState.SetRivalryProfile (gs : GameState) (profile : RivalryProfile) : GameState :=
  { gs with m_rivalryProfile := profile }

/-- MomentumRuleEngine: the configurable base-points table, embedded as a
partial map from event type to points (`none` = no entry, as for an
`unordered_map` without the key). -/
structure MomentumRuleEngine where
  m_basePoints : EventType → Option Int

/-- Modelled from the spec: `MomentumRuleEngine::MomentumRuleEngine` body
is missing; the table starts empty ("unspecified types default to 0"). -/
def MomentumRuleEngine.create : MomentumRuleEngine :=
  ⟨fun _ => none⟩

/-- Modelled from the spec: `MomentumRuleEngine::SetBasePoints` body is
missing; it writes one table entry. -/
def MomentumRuleEngine.SetBasePoints (eng : MomentumRuleEngine)
    (type : EventType) (points : Int) : MomentumRuleEngine :=
  ⟨fun t => if t = type then some points else eng.m_basePoints t⟩

/-- Context weight for comeback-relevant swings: deltas are amplified when
time remaining is low and the score differential is close (spec §4.1). -/
def MomentumRuleEngine.clutchFactor (gs : GameState) : Int :=
  if gs.m_timeRemaining ≤ 120 ∧ gs.m_scoreDiff.natAbs ≤ 8 then 2 else 1

/-- Context weight for online-competitive play (spec §4.1). -/
def MomentumRuleEngine.onlineFactor (gs : GameState) : Int :=
  if gs.m_isOnlineCompetitive then 2 else 1

/-- Modelled from the spec: `MomentumRuleEngine::CalculateDelta` body is
missing.  The delta is the configured base value (0 when the type has no
entry) scaled linearly by the severity — a negative severity is clamped
to zero before use (spec §7) — and weighted by the game context. -/
def MomentumRuleEngine.CalculateDelta (eng : MomentumRuleEngine)
    (event : MomentumEvent) (gameState : GameState) : Int :=
  (eng.m_basePoints event.m_type).getD 0 * max 0 event.m_severity *
    MomentumRuleEngine.clutchFactor gameState *
    MomentumRuleEngine.onlineFactor gameState

/-- Tier scaling step of the rivalry multiplier: higher tier, larger
swings; tiers at or below 1 contribute no extra scaling.  Matches the
spec §8 scenario (hostility 1.5, tier 2, multiplier 1.5 × 2 = 3). -/
def RivalryProfile.tierScale (r : RivalryProfile) : ℚ :=
  max 1 (r.m_rivalryTier : ℚ)

/-- Modelled from the spec: `MomentumRuleEngine::ApplyRivalryMultiplier`
body is missing.  In a rivalry game the delta is multiplied by the
hostility factor with the tier as an additional scaling step, rounded
down to the integer delta scale; a non-rivalry game returns the delta
unchanged. -/
def MomentumRuleEngine.ApplyRivalryMultiplier (eng : MomentumRuleEngine)
    (delta : Int) (rivalry : RivalryProfile) : Int :=
  if rivalry.m_isRivalryGame then
    Int.floor ((delta : ℚ) * rivalry.m_hostilityFactor * rivalry.tierScale)
  else delta

/-- CrowdNoiseController: bounded ambient scalar (header field), clamped
to `[0, 1]`. -/
structure CrowdNoiseController where
  m_crowdIntensity : ℚ
deriving DecidableEq

/-- Modelled from the spec: constructor body missing; intensity starts
silent. -/
def CrowdNoiseController.create : CrowdNoiseController := ⟨0⟩

/-- Modelled from the spec: `SetIntensity` body missing; clamps into the
bounded range `[0, 1]`. -/
def CrowdNoiseController.SetIntensity (c : CrowdNoiseController) (value : ℚ) :
    CrowdNoiseController :=
  ⟨max 0 (min 1 value)⟩

def CrowdNoiseController.GetIntensity (c : CrowdNoiseController) : ℚ :=
  c.m_crowdIntensity

/-- Modelled from the spec: `PulseOnBigPlay` body missing; a one-shot
additive intensity spike. -/
def CrowdNoiseController.PulseOnBigPlay (c : CrowdNoiseController) :
    CrowdNoiseController :=
  c.SetIntensity (c.m_crowdIntensity + 1/5)

/-- Modelled from the spec: `ApplyHomeFieldAdvantage` body missing; a
smaller upward bias. -/
def CrowdNoiseController.ApplyHomeFieldAdvantage (c : CrowdNoiseController) :
    CrowdNoiseController :=
  c.SetIntensity (c.m_crowdIntensity + 1/10)

/-- Closed tag for the two concrete modifier variants of the header's
virtual hierarchy (`AccuracyModifier`, `PenaltyRiskModifier`). -/
inductive ModifierKind
  | accuracy
  | penaltyRisk
deriving DecidableEq

/-- Modifier: id, strength, remaining duration (header fields) plus the
variant tag replacing the virtual dispatch. -/
structure Modifier where
  m_id : String
  m_strength : ℚ
  m_duration : ℚ
  kind : ModifierKind
deriving DecidableEq

/-- One tick of a modifier's lifetime: the duration drops by the elapsed
tick time, with a negative elapsed time clamped to zero (spec §7). -/
def Modifier.tick (m : Modifier) (deltaTime : ℚ) : Modifier :=
  { m with m_duration := m.m_duration - max 0 deltaTime }

/-- GameplayModifierService: owns the active modifiers (header field); the
expiry log records, in order, each id on which `Expire()` was invoked
(the base `Expire()` is a no-op hook, so the log is its observable
trace). -/
structure GameplayModifierService where
  m_activeModifiers : List Modifier
  m_expiredLog : List String
deriving DecidableEq

/-- Modelled from the spec: constructor body missing; no active modifiers
and nothing expired yet. -/
def GameplayModifierService.create : GameplayModifierService := ⟨[], []⟩

/-- Modelled from the spec: `AddModifier` body missing; appends to the
active collection. -/
def GameplayModifierService.AddModifier (svc : GameplayModifierService)
    (modifier : Modifier) : GameplayModifierService :=
  { svc with m_activeModifiers := svc.m_activeModifiers ++ [modifier] }

/-- Modelled from the spec: `ClearModifiers` body missing; wipes the
active collection. -/
def GameplayModifierService.ClearModifiers (svc : GameplayModifierService) :
    GameplayModifierService :=
  { svc with m_activeModifiers := [] }

/-- Id the service uses for a team's accuracy effect. -/
def accuracyModifierId (team : Team) : String :=
  "accuracy_" ++ team.m_name

/-- Id the service uses for a team's penalty-risk effect. -/
def penaltyRiskModifierId (team : Team) : String :=
  "penalty_risk_" ++ team.m_name

def GameplayModifierService.hasModifier (svc : GameplayModifierService)
    (id : String) : Bool :=
  svc.m_activeModifiers.any fun m => m.m_id = id

/-- High-momentum threshold above which an `AccuracyModifier` is created
(spec §4.3, "fixed thresholds"). -/
def accuracyThreshold : Int := 50

/-- Low-momentum threshold below which a `PenaltyRiskModifier` is created. -/
def penaltyRiskThreshold : Int := -50

/-- Duration given to a freshly created modifier (spec §8 scenario uses
5.0 seconds). -/
def modifierBaseDuration : ℚ := 5

/-- Modelled from the spec: `GameplayModifierService::Apply` body is
missing.  Momentum is evaluated against the fixed thresholds; the
matching variant is instantiated, with strength proportional to the
momentum magnitude, only if no modifier of that id is already active for
the team (no duplicate stacking of the same id). -/
def GameplayModifierService.Apply (svc : GameplayModifierService)
    (team : Team) (momentum : Int) (gameState : GameState) :
    GameplayModifierService :=
  if accuracyThreshold ≤ momentum then
    if svc.hasModifier (accuracyModifierId team) then svc
    else svc.AddModifier
      ⟨accuracyModifierId team, (momentum.natAbs : ℚ) / 100,
        modifierBaseDuration, ModifierKind.accuracy⟩
  else if momentum ≤ penaltyRiskThreshold then
    if svc.hasModifier (penaltyRiskModifierId team) then svc
    else svc.AddModifier
      ⟨penaltyRiskModifierId team, (momentum.natAbs : ℚ) / 100,
        modifierBaseDuration, ModifierKind.penaltyRisk⟩
  else svc

/-- Modelled from the spec: `GameplayModifierService::RemoveExpired` body
is missing (the elapsed tick time it consumes is made an explicit
argument here).  Every active modifier's duration drops by the elapsed
tick time; any modifier whose duration has reached zero or below has
`Expire()` invoked on it (recorded once in the log) and is removed. -/
def GameplayModifierService.RemoveExpired (svc : GameplayModifierService)
    (deltaTime : ℚ) : GameplayModifierService :=
  let ticked := svc.m_activeModifiers.map fun m => m.tick deltaTime
  { m_activeModifiers := ticked.filter (fun m => decide (0 < m.m_duration))
    m_expiredLog := svc.m_expiredLog ++
      ((ticked.filter (fun m => decide (m.m_duration ≤ 0))).map Modifier.m_id) }

/-- Event types that flip possession and so must credit the opposing
team's meter (spec §4.5). -/
def EventType.isPossessionFlip : EventType → Bool
  | .Turnover | .Interception | .Fumble | .Sack => true
  | _ => false

/-- Event types classified as high-impact, which pulse the crowd
controller (spec §4.5: big play, touchdown, turnover-class events). -/
def EventType.isHighImpact : EventType → Bool
  | .BigPlay | .Touchdown | .Turnover | .Interception | .Fumble | .Sack => true
  | _ => false

/-- MomentumSystem: orchestrator state (header fields). -/
structure MomentumSystem where
  m_rules : MomentumRuleEngine
  m_homeMeter : MomentumMeter
  m_awayMeter : MomentumMeter
  m_modifierService : GameplayModifierService
  m_crowdController : CrowdNoiseController
  m_homeTeam : Option Team
  m_awayTeam : Option Team
  m_rivalryProfile : RivalryProfile

/-- Modelled from the spec: `MomentumSystem::MomentumSystem` body is
missing; default-constructed members and null team pointers (teams are
supplied later via `SetTeams`). -/
def MomentumSystem.create : MomentumSystem :=
  ⟨MomentumRuleEngine.create, MomentumMeter.create, MomentumMeter.create,
    GameplayModifierService.create, CrowdNoiseController.create,
    none, none, RivalryProfile.create⟩

def MomentumSystem.SetTeams (sys : MomentumSystem)
    (homeTeam awayTeam : Option Team) : MomentumSystem :=
  { sys with m_homeTeam := homeTeam, m_awayTeam := awayTeam }

def MomentumSystem.SetRivalryProfile (sys : MomentumSystem)
    (profile : RivalryProfile) : MomentumSystem :=
  { sys with m_rivalryProfile := profile }

/-- Game-state snapshot the orchestrator hands to the rule engine when an
event arrives: a fresh snapshot carrying the configured rivalry
profile. -/
def MomentumSystem.eventGameState (sys : MomentumSystem) : GameState :=
  GameState.create.SetRivalryProfile sys.m_rivalryProfile

/-- Delta a single event contributes, after the rule engine and the
rivalry multiplier. -/
def MomentumSystem.eventDelta (sys : MomentumSystem) (event : MomentumEvent) : Int :=
  sys.m_rules.ApplyRivalryMultiplier
    (sys.m_rules.CalculateDelta event sys.eventGameState)
    sys.m_rivalryProfile

/-- Credits an event's delta to the resolved meter: possession-flipping
event types credit the team opposite the source, every other type
credits the source team's meter; high-impact events also pulse the crowd
controller (spec §4.5). -/
def MomentumSystem.creditEvent (sys : MomentumSystem) (event : MomentumEvent)
    (sourceIsHome : Bool) : MomentumSystem :=
  let delta := sys.eventDelta event
  let creditHome :=
    if event.m_type.isPossessionFlip then !sourceIsHome else sourceIsHome
  let sys1 :=
    if creditHome then { sys with m_homeMeter := sys.m_homeMeter.Add delta }
    else { sys with m_awayMeter := sys.m_awayMeter.Add delta }
  if event.m_type.isHighImpact then
    { sys1 with m_crowdController := sys1.m_crowdController.PulseOnBigPlay }
  else sys1

/-- Modelled from the spec: `MomentumSystem::OnEvent` body is missing.
The affected team is resolved from the event's source-team pointer; an
event with a null source, with teams not yet supplied, or whose source
matches neither team is silently dropped (spec §7). -/
def MomentumSystem.OnEvent (sys : MomentumSystem) (event : MomentumEvent) :
    MomentumSystem :=
  match sys.m_homeTeam, sys.m_awayTeam, event.m_sourceTeam with
  | some home, some away, some src =>
    if src = home then sys.creditEvent event true
    else if src = away then sys.creditEvent event false
    else sys
  | _, _, _ => sys

/-- Modelled from the spec: `MomentumSystem::Update` body is missing.
Decays and clamps both meters, retires expired modifiers, then
re-applies the modifier service for each team with its post-decay
momentum (spec §4.5). -/
def MomentumSystem.Update (sys : MomentumSystem) (gameState : GameState)
    (deltaTime : ℚ) : MomentumSystem :=
  let homeMeter := (sys.m_homeMeter.Decay deltaTime).Clamp
  let awayMeter := (sys.m_awayMeter.Decay deltaTime).Clamp
  let svc := sys.m_modifierService.RemoveExpired deltaTime
  let svc :=
    match sys.m_homeTeam with
    | some home => svc.Apply home homeMeter.GetValue gameState
    | none => svc
  let svc :=
    match sys.m_awayTeam with
    | some away => svc.Apply away awayMeter.GetValue gameState
    | none => svc
  { sys with
      m_homeMeter := homeMeter
      m_awayMeter := awayMeter
      m_modifierService := svc }

/-!
Concrete fixtures used to instantiate theorems with hypotheses at
explicit inputs.
-/

/-- Fixture: a home team. -/
def demoHome : Team := Team.create "Home" true

/-- Fixture: an away team. -/
def demoAway : Team := Team.create "Away" false

/-- Fixture: a system with both teams supplied and 15 base points
configured for interceptions. -/
def demoSystem : MomentumSystem :=
  { MomentumSystem.create.SetTeams (some demoHome) (some demoAway) with
      m_rules := MomentumRuleEngine.create.SetBasePoints EventType.Interception 15 }

/-- Fixture: an interception thrown by the home team. -/
def demoInterception : MomentumEvent :=
  MomentumEvent.mk EventType.Interception (some demoHome) 1 0

/-!
Theorems.  Each claim of the specification is settled against the
definitions above.
-/

/-- Both game-context weights of the rule engine are positive. -/
lemma MomentumRuleEngine.clutchFactor_pos (gameState : GameState) :
    0 < MomentumRuleEngine.clutchFactor gameState := by
  unfold MomentumRuleEngine.clutchFactor
  split <;> norm_num

lemma MomentumRuleEngine.onlineFactor_pos (gameState : GameState) :
    0 < MomentumRuleEngine.onlineFactor gameState := by
  unfold MomentumRuleEngine.onlineFactor
  split <;> norm_num

/-- A non-negative base-points entry yields a non-negative delta. -/
lemma MomentumRuleEngine.calculateDelta_nonneg (eng : MomentumRuleEngine)
    (event : MomentumEvent) (gameState : GameState)
    (hbase : 0 ≤ (eng.m_basePoints event.m_type).getD 0) :
    0 ≤ eng.CalculateDelta event gameState := by
  unfold MomentumRuleEngine.CalculateDelta
  exact mul_nonneg
    (mul_nonneg (mul_nonneg hbase (le_max_left 0 _))
      (MomentumRuleEngine.clutchFactor_pos gameState).le)
    (MomentumRuleEngine.onlineFactor_pos gameState).le

lemma RivalryProfile.tierScale_nonneg (r : RivalryProfile) :
    (0 : ℚ) ≤ r.tierScale :=
  le_trans zero_le_one (le_max_left 1 _)

/-- The rivalry multiplier keeps a non-negative delta non-negative when
the hostility factor is non-negative. -/
lemma MomentumRuleEngine.applyRivalryMultiplier_nonneg
    (eng : MomentumRuleEngine) (delta : Int) (r : RivalryProfile)
    (hd : 0 ≤ delta) (hh : 0 ≤ r.m_hostilityFactor) :
    0 ≤ eng.ApplyRivalryMultiplier delta r := by
  unfold MomentumRuleEngine.ApplyRivalryMultiplier
  split
  · exact Int.floor_nonneg.mpr
      (mul_nonneg (mul_nonneg (Int.cast_nonneg.mpr hd) hh) r.tierScale_nonneg)
  · exact hd

/-- Adding a non-negative delta never lowers an in-range meter value. -/
lemma MomentumMeter.add_value_mono (m : MomentumMeter) (delta : Int)
    (hd : 0 ≤ delta) (h2 : m.m_value ≤ m.m_maxValue) :
    m.m_value ≤ (m.Add delta).m_value := by
  simp only [MomentumMeter.Add, MomentumMeter.clampValue]
  omega

/-- Clamping lands the value inside the configured bounds whenever the
configuration is sane (min ≤ max). -/
lemma MomentumMeter.clampValue_mem (m : MomentumMeter)
    (h : m.m_minValue ≤ m.m_maxValue) :
    m.m_minValue ≤ m.clampValue.m_value ∧
      m.clampValue.m_value ≤ m.m_maxValue := by
  simp only [MomentumMeter.clampValue]
  omega

/-- Every public meter mutation leaves the configured bounds and decay
rate untouched. -/
lemma MomentumMeter.applyMeterOp_config (m : MomentumMeter) (op : MeterOp) :
    (m.applyMeterOp op).m_minValue = m.m_minValue ∧
      (m.applyMeterOp op).m_maxValue = m.m_maxValue := by
  cases op <;> exact ⟨rfl, rfl⟩

/-- Every public meter mutation re-establishes the bounds invariant. -/
lemma MomentumMeter.applyMeterOp_mem (m : MomentumMeter) (op : MeterOp)
    (h : m.m_minValue ≤ m.m_maxValue) :
    m.m_minValue ≤ (m.applyMeterOp op).m_value ∧
      (m.applyMeterOp op).m_value ≤ m.m_maxValue := by
  cases op with
  | add p => exact MomentumMeter.clampValue_mem _ h
  | decay dt => exact MomentumMeter.clampValue_mem _ h
  | clamp => exact MomentumMeter.clampValue_mem _ h

/-- Bounds invariant across an arbitrary sequence of public mutations. -/
lemma MomentumMeter.runOps_mem (ops : List MeterOp) (m : MomentumMeter)
    (hcfg : m.m_minValue ≤ m.m_maxValue)
    (h1 : m.m_minValue ≤ m.m_value) (h2 : m.m_value ≤ m.m_maxValue) :
    (m.runOps ops).m_minValue = m.m_minValue ∧
      (m.runOps ops).m_maxValue = m.m_maxValue ∧
      m.m_minValue ≤ (m.runOps ops).m_value ∧
      (m.runOps ops).m_value ≤ m.m_maxValue := by
  induction ops generalizing m with
  | nil => exact ⟨rfl, rfl, h1, h2⟩
  | cons op rest ih =>
    have hc := m.applyMeterOp_config op
    have hb := m.applyMeterOp_mem op hcfg
    have step := ih (m.applyMeterOp op) (by omega) (by omega) (by omega)
    simp only [MomentumMeter.runOps, List.foldl_cons] at *
    exact ⟨by omega, by omega, by omega, by omega⟩

/-- Claim C1: for every MomentumMeter constructed with bounds
[minValue, maxValue] and for every sequence of Add, Decay and Clamp
calls (with any arguments), GetValue() returns a value within
[minValue, maxValue]. -/
theorem momentumMeter_getValue_in_bounds (minValue maxValue : Int)
    (decayRate : ℚ) (ops : List MeterOp) (h : minValue ≤ maxValue) :
    minValue ≤
        ((MomentumMeter.create minValue maxValue decayRate).runOps ops).GetValue ∧
      ((MomentumMeter.create minValue maxValue decayRate).runOps ops).GetValue ≤
        maxValue := by
  have hinit :=
    MomentumMeter.clampValue_mem ⟨0, minValue, maxValue, decayRate⟩ h
  have hrun :=
    MomentumMeter.runOps_mem ops (MomentumMeter.create minValue maxValue decayRate)
      h hinit.1 hinit.2
  exact ⟨hrun.2.2.1, hrun.2.2.2⟩

/-- Witness for C1 at a concrete input: default bounds, an overshooting
add, a decay and a clamp leave GetValue inside [-100, 100]. -/
theorem momentumMeter_getValue_in_bounds_witness :
    (-100 : Int) ≤ 100 ∧
    ((-100 : Int) ≤
        ((MomentumMeter.create (-100) 100 (1/4)).runOps
          [MeterOp.add 500, MeterOp.decay 2, MeterOp.clamp]).GetValue ∧
      ((MomentumMeter.create (-100) 100 (1/4)).runOps
          [MeterOp.add 500, MeterOp.decay 2, MeterOp.clamp]).GetValue ≤ 100) :=
  ⟨by decide,
    momentumMeter_getValue_in_bounds (-100) 100 (1/4)
      [MeterOp.add 500, MeterOp.decay 2, MeterOp.clamp] (by decide)⟩

/-- Post-clamp value of one decay step, spelled out. -/
lemma MomentumMeter.decay_value (m : MomentumMeter) (deltaTime : ℚ) :
    (m.Decay deltaTime).m_value =
      max m.m_minValue (min m.m_maxValue
        (if 0 < m.m_value then max 0 (m.m_value - m.decayAmount deltaTime)
         else if m.m_value < 0 then min 0 (m.m_value + m.decayAmount deltaTime)
         else m.m_value)) := rfl

/-- One decay step removes a non-negative integer magnitude whenever the
decay rate is non-negative. -/
lemma MomentumMeter.decayAmount_nonneg (m : MomentumMeter) (deltaTime : ℚ)
    (hrate : 0 ≤ m.m_decayRate) : 0 ≤ m.decayAmount deltaTime :=
  Int.floor_nonneg.mpr (mul_nonneg hrate (le_max_left 0 deltaTime))

/-- Claim C3: Decay moves the value toward 0 by decayRate * deltaTime
without overshooting past 0 — it never changes the value's sign, never
increases its distance from zero, and a negative deltaTime is clamped to
zero before use, so it causes no change. -/
theorem momentumMeter_decay_toward_zero (m : MomentumMeter) (deltaTime : ℚ)
    (hrate : 0 ≤ m.m_decayRate)
    (h1 : m.m_minValue ≤ m.m_value) (h2 : m.m_value ≤ m.m_maxValue) :
    (0 ≤ m.m_value → 0 ≤ (m.Decay deltaTime).m_value) ∧
    (m.m_value ≤ 0 → (m.Decay deltaTime).m_value ≤ 0) ∧
    (m.Decay deltaTime).m_value.natAbs ≤ m.m_value.natAbs ∧
    (deltaTime ≤ 0 → m.Decay deltaTime = m) ∧
    (m.m_minValue ≤ 0 → 0 ≤ m.m_value →
      (m.Decay deltaTime).m_value = max 0 (m.m_value - m.decayAmount deltaTime)) ∧
    (0 ≤ m.m_maxValue → m.m_value ≤ 0 →
      (m.Decay deltaTime).m_value = min 0 (m.m_value + m.decayAmount deltaTime)) := by
  have hamt := m.decayAmount_nonneg deltaTime hrate
  refine ⟨?_, ?_, ?_, ?_, ?_, ?_⟩
  · intro h0
    rw [MomentumMeter.decay_value]
    split_ifs <;> omega
  · intro h0
    rw [MomentumMeter.decay_value]
    split_ifs <;> omega
  · rw [MomentumMeter.decay_value]
    split_ifs <;> omega
  · intro hdt
    have hmax : max 0 deltaTime = 0 := max_eq_left hdt
    have hz : m.decayAmount deltaTime = 0 := by
      simp [MomentumMeter.decayAmount, hmax]
    show MomentumMeter.clampValue _ = m
    have hval :
        (if 0 < m.m_value then max 0 (m.m_value - m.decayAmount deltaTime)
         else if m.m_value < 0 then min 0 (m.m_value + m.decayAmount deltaTime)
         else m.m_value) = m.m_value := by
      split_ifs <;> omega
    rw [hval]
    simp only [MomentumMeter.clampValue]
    have : max m.m_minValue (min m.m_maxValue m.m_value) = m.m_value := by omega
    rw [this]
  · intro hmin h0
    rw [MomentumMeter.decay_value]
    split_ifs <;> omega
  · intro hmax h0
    rw [MomentumMeter.decay_value]
    split_ifs <;> omega

/-- Witness for C3 at a concrete input: the spec §8 scenario, value 90
with decay rate 10/sec, decayed for one second. -/
theorem momentumMeter_decay_toward_zero_witness :
    (0 : ℚ) ≤ (10 : ℚ) ∧ (-100 : Int) ≤ 90 ∧ (90 : Int) ≤ 100 ∧
    (0 ≤ (90 : Int) →
      0 ≤ ((MomentumMeter.mk 90 (-100) 100 10).Decay 1).m_value) ∧
    ((MomentumMeter.mk 90 (-100) 100 10).Decay 1).m_value.natAbs ≤
      (90 : Int).natAbs := by
  have h := momentumMeter_decay_toward_zero (MomentumMeter.mk 90 (-100) 100 10) 1
    (by norm_num) (by norm_num) (by norm_num)
  exact ⟨by norm_num, by norm_num, by norm_num, h.1, h.2.2.1⟩

/-- Claim C10: a MomentumMeter constructed with no arguments has bounds
[-100, 100] and decay rate 0.25 per second; a RivalryProfile constructed
with no arguments is a non-rivalry game with hostility factor 1.0 and
tier 0. -/
theorem default_construction_values :
    MomentumMeter.create.m_minValue = -100 ∧
    MomentumMeter.create.m_maxValue = 100 ∧
    MomentumMeter.create.m_decayRate = 1/4 ∧
    RivalryProfile.create.IsRivalryGame = false ∧
    RivalryProfile.create.GetHostilityFactor = 1 ∧
    RivalryProfile.create.GetRivalryTier = 0 := by
  refine ⟨rfl, rfl, ?_, rfl, rfl, rfl⟩
  norm_num [MomentumMeter.create, MomentumMeter.clampValue]

/-- Claim C5: for every integer delta and every RivalryProfile whose
IsRivalryGame() is false, ApplyRivalryMultiplier(delta, profile) returns
exactly delta. -/
theorem applyRivalryMultiplier_non_rivalry (eng : MomentumRuleEngine)
    (delta : Int) (profile : RivalryProfile)
    (h : profile.IsRivalryGame = false) :
    eng.ApplyRivalryMultiplier delta profile = delta := by
  simp [MomentumRuleEngine.ApplyRivalryMultiplier,
    RivalryProfile.IsRivalryGame] at h ⊢
  simp [h]

/-- Witness for C5 at a concrete input: the default profile is not a
rivalry game and the delta 37 passes through unchanged. -/
theorem applyRivalryMultiplier_non_rivalry_witness :
    RivalryProfile.create.IsRivalryGame = false ∧
    MomentumRuleEngine.create.ApplyRivalryMultiplier 37 RivalryProfile.create = 37 :=
  ⟨rfl, applyRivalryMultiplier_non_rivalry MomentumRuleEngine.create 37
    RivalryProfile.create rfl⟩

/-- Claim C4: CalculateDelta returns 0 when the event's severity is 0
(regardless of type), returns 0 when the event's type has no entry in
the base-points table (before any multiplier is applied), and clamps a
negative severity to zero before use. -/
theorem calculateDelta_edge_cases (eng : MomentumRuleEngine)
    (event : MomentumEvent) (gameState : GameState) :
    (event.m_severity = 0 → eng.CalculateDelta event gameState = 0) ∧
    (eng.m_basePoints event.m_type = none →
      eng.CalculateDelta event gameState = 0) ∧
    eng.CalculateDelta event gameState =
      eng.CalculateDelta { event with m_severity := max 0 event.m_severity }
        gameState := by
  refine ⟨fun h => ?_, fun h => ?_, ?_⟩
  · simp [MomentumRuleEngine.CalculateDelta, h]
  · simp [MomentumRuleEngine.CalculateDelta, h]
  · simp [MomentumRuleEngine.CalculateDelta, max_comm]

/-- Witness for C4 at a concrete input: a zero-severity Touchdown with a
configured table still yields 0, and an unconfigured type yields 0. -/
theorem calculateDelta_edge_cases_witness :
    (MomentumEvent.mk EventType.Touchdown none 0 0).m_severity = 0 ∧
    (MomentumRuleEngine.create.SetBasePoints EventType.Touchdown 25).CalculateDelta
      (MomentumEvent.mk EventType.Touchdown none 0 0) GameState.create = 0 ∧
    MomentumRuleEngine.create.m_basePoints EventType.BigPlay = none ∧
    MomentumRuleEngine.create.CalculateDelta
      (MomentumEvent.mk EventType.BigPlay none 3 0) GameState.create = 0 :=
  ⟨rfl,
    (calculateDelta_edge_cases
      (MomentumRuleEngine.create.SetBasePoints EventType.Touchdown 25)
      (MomentumEvent.mk EventType.Touchdown none 0 0) GameState.create).1 rfl,
    rfl,
    (calculateDelta_edge_cases MomentumRuleEngine.create
      (MomentumEvent.mk EventType.BigPlay none 3 0) GameState.create).2.1 rfl⟩

/-- Claim C6 as stated is false: for a fixed negative delta, raising the
hostility factor of a rivalry game strictly decreases the returned
value.  Concretely, with delta = -10 and tier 1, hostility 2 yields -20
while hostility 1 yields -10. -/
theorem applyRivalryMultiplier_not_monotone_counterexample :
    MomentumRuleEngine.create.ApplyRivalryMultiplier (-10)
        (RivalryProfile.create "r" 1 2 true) <
      MomentumRuleEngine.create.ApplyRivalryMultiplier (-10)
        (RivalryProfile.create "r" 1 1 true) := by
  norm_num [MomentumRuleEngine.ApplyRivalryMultiplier, RivalryProfile.create,
    RivalryProfile.tierScale]

/-- Claim C6, amended: for every fixed NON-NEGATIVE delta and every
rivalry game, the output of ApplyRivalryMultiplier is monotonically
non-decreasing in the hostility factor and in the tier (holding the
other, and the delta, fixed). -/
theorem applyRivalryMultiplier_monotone (eng : MomentumRuleEngine)
    (delta : Int) (name : String) (tier tier1 tier2 : Int)
    (host host1 host2 : ℚ)
    (hdelta : 0 ≤ delta) (hhost1 : 0 ≤ host1) (hh : host1 ≤ host2)
    (hhost : 0 ≤ host) (ht : tier1 ≤ tier2) :
    eng.ApplyRivalryMultiplier delta (RivalryProfile.create name tier host1 true) ≤
      eng.ApplyRivalryMultiplier delta (RivalryProfile.create name tier host2 true) ∧
    eng.ApplyRivalryMultiplier delta (RivalryProfile.create name tier1 host true) ≤
      eng.ApplyRivalryMultiplier delta (RivalryProfile.create name tier2 host true) := by
  have hdq : (0 : ℚ) ≤ (delta : ℚ) := Int.cast_nonneg.mpr hdelta
  constructor
  · simp only [MomentumRuleEngine.ApplyRivalryMultiplier, RivalryProfile.create,
      RivalryProfile.tierScale, if_true]
    apply Int.floor_le_floor
    apply mul_le_mul_of_nonneg_right
    · exact mul_le_mul_of_nonneg_left hh hdq
    · exact le_trans zero_le_one (le_max_left 1 _)
  · simp only [MomentumRuleEngine.ApplyRivalryMultiplier, RivalryProfile.create,
      RivalryProfile.tierScale, if_true]
    apply Int.floor_le_floor
    apply mul_le_mul_of_nonneg_left
    · exact max_le_max le_rfl (Int.cast_le.mpr ht)
    · exact mul_nonneg hdq hhost

/-- Witness for the amended C6 at a concrete input: delta 15, hostility
raised from 1 to 3/2 and tier raised from 1 to 2. -/
theorem applyRivalryMultiplier_monotone_witness :
    (0 : Int) ≤ 15 ∧ (0 : ℚ) ≤ 1 ∧ (1 : ℚ) ≤ 3/2 ∧ (0 : ℚ) ≤ 3/2 ∧
      (1 : Int) ≤ 2 ∧
    (MomentumRuleEngine.create.ApplyRivalryMultiplier 15
        (RivalryProfile.create "r" 1 1 true) ≤
      MomentumRuleEngine.create.ApplyRivalryMultiplier 15
        (RivalryProfile.create "r" 1 (3/2) true) ∧
    MomentumRuleEngine.create.ApplyRivalryMultiplier 15
        (RivalryProfile.create "r" 1 (3/2) true) ≤
      MomentumRuleEngine.create.ApplyRivalryMultiplier 15
        (RivalryProfile.create "r" 2 (3/2) true)) :=
  ⟨by decide, by norm_num, by norm_num, by norm_num, by decide,
    applyRivalryMultiplier_monotone MomentumRuleEngine.create 15 "r" 1 1 2
      (3/2) 1 (3/2) (by decide) (by norm_num) (by norm_num) (by norm_num)
      (by decide)⟩

/-- After appending a modifier, a modifier of that id is active. -/
lemma GameplayModifierService.hasModifier_after_add
    (svc : GameplayModifierService) (id : String) (strength duration : ℚ)
    (kind : ModifierKind) :
    (svc.AddModifier ⟨id, strength, duration, kind⟩).hasModifier id = true := by
  simp [GameplayModifierService.AddModifier, GameplayModifierService.hasModifier]

/-- Claim C7: calling GameplayModifierService::Apply twice with the same
team, momentum and game state is idempotent — the second call creates no
duplicate instance of an already-active modifier id, so the collection
keeps at most one modifier of any given id for the team. -/
theorem gameplayModifierService_apply_idempotent
    (svc : GameplayModifierService) (team : Team) (momentum : Int)
    (gameState : GameState) :
    (svc.Apply team momentum gameState).Apply team momentum gameState =
      svc.Apply team momentum gameState := by
  by_cases hc1 : accuracyThreshold ≤ momentum
  · by_cases hacc : svc.hasModifier (accuracyModifierId team) = true
    · simp [GameplayModifierService.Apply, hc1, hacc]
    · simp [GameplayModifierService.Apply, hc1, hacc,
        GameplayModifierService.hasModifier_after_add]
  · by_cases hc2 : momentum ≤ penaltyRiskThreshold
    · by_cases hpen : svc.hasModifier (penaltyRiskModifierId team) = true
      · simp [GameplayModifierService.Apply, hc1, hc2, hpen]
      · simp [GameplayModifierService.Apply, hc1, hc2, hpen,
          GameplayModifierService.hasModifier_after_add]
    · simp [GameplayModifierService.Apply, hc1, hc2]

/-- Claim C9: if OnEvent is called before SetTeams has supplied both team
references (either pointer still null), the event is silently dropped
and the whole system state, meters included, is left unchanged. -/
theorem onEvent_without_teams_is_noop (sys : MomentumSystem)
    (event : MomentumEvent)
    (h : sys.m_homeTeam = none ∨ sys.m_awayTeam = none) :
    sys.OnEvent event = sys := by
  rcases h with h | h <;>
    cases hH : sys.m_homeTeam <;> cases hA : sys.m_awayTeam <;>
      cases hS : event.m_sourceTeam <;>
      simp_all [MomentumSystem.OnEvent]

/-- Witness for C9 at a concrete input: a freshly constructed system
(teams not yet supplied) drops an Interception event. -/
theorem onEvent_without_teams_is_noop_witness :
    (MomentumSystem.create.m_homeTeam = none ∨
      MomentumSystem.create.m_awayTeam = none) ∧
    MomentumSystem.create.OnEvent
        (MomentumEvent.mk EventType.Interception (some (Team.create "A")) 1 0) =
      MomentumSystem.create :=
  ⟨Or.inl rfl,
    onEvent_without_teams_is_noop MomentumSystem.create
      (MomentumEvent.mk EventType.Interception (some (Team.create "A")) 1 0)
      (Or.inl rfl)⟩

/-- For a possession-flipping event, crediting resolves to the meter
opposite the source side; the other meter is untouched. -/
lemma MomentumSystem.creditEvent_meters_of_flip (sys : MomentumSystem)
    (event : MomentumEvent) (b : Bool)
    (hflip : event.m_type.isPossessionFlip = true) :
    (sys.creditEvent event b).m_homeMeter =
      (if b then sys.m_homeMeter else sys.m_homeMeter.Add (sys.eventDelta event)) ∧
    (sys.creditEvent event b).m_awayMeter =
      (if b then sys.m_awayMeter.Add (sys.eventDelta event) else sys.m_awayMeter) := by
  cases b <;> unfold MomentumSystem.creditEvent <;> rw [hflip] <;>
    cases hhi : event.m_type.isHighImpact <;> simp

/-- Claim C2: for every turnover-class event (turnover, interception,
fumble, sack) whose source team is Team A, OnEvent never increases
Team A's meter and never decreases the opposing Team B's meter: the
delta is credited to Team B's meter only, as a gain.  Stated for both
possible source sides; a non-negative configured base-points entry and
hostility factor make the credited delta a gain. -/
theorem onEvent_turnover_credits_opponent (sys : MomentumSystem)
    (event : MomentumEvent) (home away src : Team)
    (hh : sys.m_homeTeam = some home) (ha : sys.m_awayTeam = some away)
    (hs : event.m_sourceTeam = some src)
    (hflip : event.m_type.isPossessionFlip = true)
    (hbase : 0 ≤ (sys.m_rules.m_basePoints event.m_type).getD 0)
    (hhost : 0 ≤ sys.m_rivalryProfile.m_hostilityFactor)
    (hhm : sys.m_homeMeter.m_value ≤ sys.m_homeMeter.m_maxValue)
    (ham : sys.m_awayMeter.m_value ≤ sys.m_awayMeter.m_maxValue) :
    (src = home →
      (sys.OnEvent event).m_homeMeter = sys.m_homeMeter ∧
        sys.m_awayMeter.GetValue ≤ (sys.OnEvent event).m_awayMeter.GetValue) ∧
    (src ≠ home → src = away →
      (sys.OnEvent event).m_awayMeter = sys.m_awayMeter ∧
        sys.m_homeMeter.GetValue ≤ (sys.OnEvent event).m_homeMeter.GetValue) := by
  have hdelta : 0 ≤ sys.eventDelta event :=
    MomentumRuleEngine.applyRivalryMultiplier_nonneg _ _ _
      (MomentumRuleEngine.calculateDelta_nonneg _ _ _ hbase) hhost
  have hmeters := fun b => sys.creditEvent_meters_of_flip event b hflip
  constructor
  · intro he
    have hred : sys.OnEvent event = sys.creditEvent event true := by
      unfold MomentumSystem.OnEvent
      rw [hh, ha, hs]
      show (if src = home then sys.creditEvent event true
        else if src = away then sys.creditEvent event false else sys) =
          sys.creditEvent event true
      rw [if_pos he]
    rw [hred, (hmeters true).1, (hmeters true).2]
    exact ⟨rfl, sys.m_awayMeter.add_value_mono _ hdelta ham⟩
  · intro hne he
    have hred : sys.OnEvent event = sys.creditEvent event false := by
      unfold MomentumSystem.OnEvent
      rw [hh, ha, hs]
      show (if src = home then sys.creditEvent event true
        else if src = away then sys.creditEvent event false else sys) =
          sys.creditEvent event false
      rw [if_neg hne, if_pos he]
    rw [hred, (hmeters false).1, (hmeters false).2]
    exact ⟨rfl, sys.m_homeMeter.add_value_mono _ hdelta hhm⟩

/-- Witness for C2 at a concrete input: an interception thrown by the
home team of `demoSystem` leaves the home meter untouched and does not
decrease the away meter. -/
theorem onEvent_turnover_credits_opponent_witness :
    demoInterception.m_type.isPossessionFlip = true ∧
    0 ≤ (demoSystem.m_rules.m_basePoints demoInterception.m_type).getD 0 ∧
    ((demoSystem.OnEvent demoInterception).m_homeMeter = demoSystem.m_homeMeter ∧
      demoSystem.m_awayMeter.GetValue ≤
        (demoSystem.OnEvent demoInterception).m_awayMeter.GetValue) :=
  ⟨rfl, by decide,
    (onEvent_turnover_credits_opponent demoSystem demoInterception
      demoHome demoAway demoHome rfl rfl rfl rfl (by decide) (by decide)
      (by decide) (by decide)).1 rfl⟩

/-- Ticking preserves a modifier's id. -/
lemma Modifier.tick_id (m : Modifier) (deltaTime : ℚ) :
    (m.tick deltaTime).m_id = m.m_id := rfl

/-- The modifiers expiring in one RemoveExpired call are exactly the
active ones whose duration does not exceed the (clamped) elapsed time. -/
lemma removeExpired_dead_segment (deltaTime : ℚ) (l : List Modifier) :
    ((l.map (fun m => m.tick deltaTime)).filter
        (fun m => decide (m.m_duration ≤ 0))).map Modifier.m_id =
      (l.filter (fun m => decide (m.m_duration ≤ max 0 deltaTime))).map
        Modifier.m_id := by
  induction l with
  | nil => rfl
  | cons m l ih =>
    have hiff : ((m.tick deltaTime).m_duration ≤ 0) ↔
        m.m_duration ≤ max 0 deltaTime := by
      simp [Modifier.tick, sub_nonpos]
    by_cases hd : m.m_duration ≤ max 0 deltaTime
    · simp only [List.map_cons, List.filter_cons]
      rw [if_pos (by simpa using hiff.mpr hd), if_pos (by simpa using hd)]
      rw [List.map_cons, List.map_cons, Modifier.tick_id, ih]
    · simp only [List.map_cons, List.filter_cons]
      rw [if_neg (by simpa using fun hc => hd (hiff.mp hc)),
        if_neg (by simpa using hd)]
      exact ih

/-- The modifiers surviving one RemoveExpired call are exactly the
active ones whose duration exceeds the (clamped) elapsed time, each
ticked down. -/
lemma removeExpired_alive_segment (deltaTime : ℚ) (l : List Modifier) :
    (l.map (fun m => m.tick deltaTime)).filter
        (fun m => decide (0 < m.m_duration)) =
      (l.filter (fun m => decide (max 0 deltaTime < m.m_duration))).map
        (fun m => m.tick deltaTime) := by
  induction l with
  | nil => rfl
  | cons m l ih =>
    have hiff : (0 < (m.tick deltaTime).m_duration) ↔
        max 0 deltaTime < m.m_duration := by
      simp [Modifier.tick, sub_pos]
    by_cases hd : max 0 deltaTime < m.m_duration
    · simp only [List.map_cons, List.filter_cons]
      rw [if_pos (by simpa using hiff.mpr hd), if_pos (by simpa using hd)]
      simp [ih]
    · simp only [List.map_cons, List.filter_cons]
      rw [if_neg (by simpa using fun hc => hd (hiff.mp hc)),
        if_neg (by simpa using hd)]
      exact ih

/-- Claim C8: with a positive elapsed tick time, RemoveExpired strictly
decreases every surviving modifier's remaining duration; a modifier
whose duration is first observed at or below 0 is removed from the
active collection and Expire() is invoked on it exactly once (one log
entry per expiring instance); an id absent from the active collection is
never revived and never expired again. -/
theorem removeExpired_lifecycle (svc : GameplayModifierService)
    (deltaTime : ℚ) (hdt : 0 < deltaTime) :
    ((svc.RemoveExpired deltaTime).m_activeModifiers =
      (svc.m_activeModifiers.filter
        (fun m => decide (deltaTime < m.m_duration))).map
          (fun m => m.tick deltaTime)) ∧
    (∀ m ∈ (svc.RemoveExpired deltaTime).m_activeModifiers,
      ∃ m0 ∈ svc.m_activeModifiers,
        m = m0.tick deltaTime ∧ m.m_duration < m0.m_duration ∧
          0 < m.m_duration) ∧
    ((svc.RemoveExpired deltaTime).m_expiredLog =
      svc.m_expiredLog ++
        (svc.m_activeModifiers.filter
          (fun m => decide (m.m_duration ≤ deltaTime))).map Modifier.m_id) ∧
    (∀ i : String, (∀ m ∈ svc.m_activeModifiers, m.m_id ≠ i) →
      (∀ m ∈ (svc.RemoveExpired deltaTime).m_activeModifiers, m.m_id ≠ i) ∧
        (svc.RemoveExpired deltaTime).m_expiredLog.count i =
          svc.m_expiredLog.count i) := by
  have hmax : max 0 deltaTime = deltaTime := max_eq_right hdt.le
  have halive : (svc.RemoveExpired deltaTime).m_activeModifiers =
      (svc.m_activeModifiers.filter
        (fun m => decide (deltaTime < m.m_duration))).map
          (fun m => m.tick deltaTime) := by
    show (svc.m_activeModifiers.map (fun m => m.tick deltaTime)).filter
        (fun m => decide (0 < m.m_duration)) = _
    rw [removeExpired_alive_segment, hmax]
  have hlog : (svc.RemoveExpired deltaTime).m_expiredLog =
      svc.m_expiredLog ++
        (svc.m_activeModifiers.filter
          (fun m => decide (m.m_duration ≤ deltaTime))).map Modifier.m_id := by
    show svc.m_expiredLog ++
        ((svc.m_activeModifiers.map (fun m => m.tick deltaTime)).filter
          (fun m => decide (m.m_duration ≤ 0))).map Modifier.m_id = _
    rw [removeExpired_dead_segment, hmax]
  have hsurvivor : ∀ m ∈ (svc.RemoveExpired deltaTime).m_activeModifiers,
      ∃ m0 ∈ svc.m_activeModifiers,
        m = m0.tick deltaTime ∧ m.m_duration < m0.m_duration ∧
          0 < m.m_duration := by
    intro m hm
    rw [halive] at hm
    obtain ⟨m0, hm0, hEq⟩ := List.mem_map.mp hm
    obtain ⟨hm0mem, hm0p⟩ := List.mem_filter.mp hm0
    have hdur : deltaTime < m0.m_duration := of_decide_eq_true hm0p
    refine ⟨m0, hm0mem, hEq.symm, ?_, ?_⟩
    · rw [← hEq]
      simp only [Modifier.tick, hmax]
      linarith
    · rw [← hEq]
      simp only [Modifier.tick, hmax]
      linarith
  refine ⟨halive, hsurvivor, hlog, ?_⟩
  intro i hi
  constructor
  · intro m hm
    obtain ⟨m0, hm0mem, hEq, _, _⟩ := hsurvivor m hm
    rw [hEq, Modifier.tick_id]
    exact hi m0 hm0mem
  · rw [hlog, List.count_append]
    have hzero : ((svc.m_activeModifiers.filter
        (fun m => decide (m.m_duration ≤ deltaTime))).map Modifier.m_id).count i = 0 := by
      rw [List.count_eq_zero]
      intro hmem
      obtain ⟨m0, hm0, hEq⟩ := List.mem_map.mp hmem
      exact hi m0 (List.mem_filter.mp hm0).1 hEq
    rw [hzero, Nat.add_zero]

/-- Witness for C8 at a concrete input: one penalty-risk modifier with
1.5 seconds left, ticked by 2 seconds, lands in the expiry log. -/
theorem removeExpired_lifecycle_witness :
    (0 : ℚ) < 2 ∧
    ((GameplayModifierService.mk
        [Modifier.mk "penalty_risk_Away" (1/2) (3/2) ModifierKind.penaltyRisk]
        []).RemoveExpired 2).m_expiredLog =
      (GameplayModifierService.mk
        [Modifier.mk "penalty_risk_Away" (1/2) (3/2) ModifierKind.penaltyRisk]
        []).m_expiredLog ++
        (((GameplayModifierService.mk
          [Modifier.mk "penalty_risk_Away" (1/2) (3/2) ModifierKind.penaltyRisk]
          []).m_activeModifiers.filter
            (fun m => decide (m.m_duration ≤ 2))).map Modifier.m_id) :=
  ⟨by norm_num,
    (removeExpired_lifecycle
      (GameplayModifierService.mk
        [Modifier.mk "penalty_risk_Away" (1/2) (3/2) ModifierKind.penaltyRisk]
        []) 2 (by norm_num)).2.2.1⟩

end MomentumSpec
